import Mathlib

namespace Mimi

/-- Round-half-even of the exact rational `a / n` (for `n > 0`), the rounding performed by
`Decimal.quantize(Decimal("0.01"))` in `_quantize_price` when prices are tracked in cents. -/
def rheDiv (a n : Int) : Int :=
  let q := Int.ediv a n
  let r := Int.emod a n
  if 2 * r < n then q
  else if n < 2 * r then q + 1
  else if Int.emod q 2 = 0 then q else q + 1

/-- The mutable Stock aggregate of `app/models/inventory.py`: one row per (shop, product).
Prices are stored as `Numeric(12, 2)`, modelled here as an integer number of cents, so
`_quantize_price` on a stored price is the identity and quantization only acts at the
weighted-average divisions (via `rheDiv`). -/
structure Stock where
  quantity_on_hand : Int
  buying_price : Int
  selling_price : Int
deriving Repr, DecidableEq

/-- An HTTPException raised by the inventory routes: HTTP status code plus detail message.
Status 400 is a Validation error, 404 NotFound, 409 Conflict. -/
structure ApiError where
  status : Nat
  detail : String
deriving Repr, DecidableEq

/-- Decidable equality of route results, so that concrete evaluations can be checked. -/
def exceptDecEq {ε α : Type} [DecidableEq ε] [DecidableEq α] : DecidableEq (Except ε α)
  | .ok x, .ok y =>
    if h : x = y then .isTrue (by rw [h]) else .isFalse (by simp [h])
  | .error x, .error y =>
    if h : x = y then .isTrue (by rw [h]) else .isFalse (by simp [h])
  | .ok _, .error _ => .isFalse (by simp)
  | .error _, .ok _ => .isFalse (by simp)

instance {ε α : Type} [DecidableEq ε] [DecidableEq α] : DecidableEq (Except ε α) :=
  exceptDecEq

/-- Embedding of `_apply_purchase_effect` (inventory.py lines 525 to 540): if the current
quantity is zero the incoming prices replace the stored ones outright, otherwise both prices
are recomputed as quantized weighted averages and the quantity increases by `qty`. -/
def apply_purchase_effect (stock : Stock) (qty buy sell : Int) : Stock :=
  let current_qty := stock.quantity_on_hand
  if current_qty = 0 then
    { quantity_on_hand := qty, buying_price := buy, selling_price := sell }
  else
    let new_qty := current_qty + qty
    { quantity_on_hand := new_qty
      buying_price := rheDiv (stock.buying_price * current_qty + buy * qty) new_qty
      selling_price := rheDiv (stock.selling_price * current_qty + sell * qty) new_qty }

/-- Embedding of `_remove_purchase_effect` (inventory.py lines 504 to 522): fails with a
409 Conflict when `qty` exceeds the quantity on hand; leaves prices untouched when the
removal drains the stock to zero; otherwise subtracts the weighted contribution. -/
def remove_purchase_effect (stock : Stock) (qty buy sell : Int) : Except ApiError Stock :=
  let current_qty := stock.quantity_on_hand
  if current_qty < qty then
    .error ⟨409, "Cannot modify purchase because purchased stock has already been consumed"⟩
  else
    let new_qty := current_qty - qty
    if new_qty = 0 then
      .ok { stock with quantity_on_hand := 0 }
    else
      .ok { quantity_on_hand := new_qty
            buying_price := rheDiv (stock.buying_price * current_qty - buy * qty) new_qty
            selling_price := rheDiv (stock.selling_price * current_qty - sell * qty) new_qty }

/-- Immutable Sale ledger record (quantity, price snapshots, computed money amounts in cents),
as inserted by `create_sale`. -/
structure Sale where
  quantity : Int
  unit_buying_price : Int
  unit_selling_price : Int
  revenue : Int
  cost : Int
  profit : Int
deriving Repr, DecidableEq

/-- Embedding of the stock-and-ledger core of `create_sale` (inventory.py lines 1270 to 1302):
requires sufficient quantity (400 otherwise), snapshots the current buying price as cost basis,
uses the payload selling price when supplied and the stored one otherwise, computes
revenue, cost and profit, and decrements the quantity on hand. -/
def create_sale (stock : Stock) (qty : Int) (unit_selling_price : Option Int) :
    Except ApiError (Sale × Stock) :=
  if stock.quantity_on_hand < qty then
    .error ⟨400, "Insufficient stock quantity"⟩
  else
    let unit_buying := stock.buying_price
    let unit_selling := unit_selling_price.getD stock.selling_price
    let revenue := unit_selling * qty
    let cost := unit_buying * qty
    .ok ({ quantity := qty
           unit_buying_price := unit_buying
           unit_selling_price := unit_selling
           revenue := revenue
           cost := cost
           profit := revenue - cost },
         { stock with quantity_on_hand := stock.quantity_on_hand - qty })

/-- Immutable SaleReturn ledger record as inserted by `create_sale_return`. -/
structure SaleReturn where
  quantity : Int
  unit_buying_price : Int
  unit_selling_price : Int
  refund_amount : Int
  cost_reversed : Int
  profit_reversed : Int
  restocked : Bool
deriving Repr, DecidableEq

/-- Embedding of the return-bound check and stock restock of `create_sale_return`
(inventory.py lines 1357 to 1416). `already_returned` is the sum over the full return
history of the sale, recomputed by the route on each request. Both overflow rejections
use HTTP 400. Restocking adds the quantity back without touching the stored prices,
creating the Stock row from the sale snapshots when it is absent. -/
def create_sale_return (sale : Sale) (already_returned : Int) (qty : Int) (restock : Bool)
    (stockOpt : Option Stock) : Except ApiError (SaleReturn × Option Stock) :=
  let remaining_qty := sale.quantity - already_returned
  if remaining_qty ≤ 0 then
    .error ⟨400, "Sale is already fully returned"⟩
  else if remaining_qty < qty then
    .error ⟨400, "Return quantity exceeds remaining sale quantity"⟩
  else
    let unit_buying := sale.unit_buying_price
    let unit_selling := sale.unit_selling_price
    let refund_amount := unit_selling * qty
    let cost_reversed := unit_buying * qty
    let stockOpt' :=
      if restock then
        match stockOpt with
        | none => some ⟨qty, unit_buying, unit_selling⟩
        | some st => some { st with quantity_on_hand := st.quantity_on_hand + qty }
      else stockOpt
    .ok ({ quantity := qty
           unit_buying_price := unit_buying
           unit_selling_price := unit_selling
           refund_amount := refund_amount
           cost_reversed := cost_reversed
           profit_reversed := refund_amount - cost_reversed
           restocked := restock },
         stockOpt')

/-- Embedding of the stock part of `adjust_stock` (inventory.py lines 1159 to 1215):
a zero-effect request is rejected with 400, a delta that would drive the quantity negative
is rejected with 400, and price overrides replace the stored averages outright. -/
def adjust_stock (stock : Stock) (quantity_delta : Int)
    (buying_price selling_price : Option Int) : Except ApiError Stock :=
  if quantity_delta = 0 ∧ buying_price = none ∧ selling_price = none then
    .error ⟨400, "No adjustment provided"⟩
  else
    let quantity_after := stock.quantity_on_hand + quantity_delta
    if quantity_after < 0 then
      .error ⟨400, "Adjustment would make stock negative"⟩
    else
      .ok { quantity_on_hand := quantity_after
            buying_price := buying_price.getD stock.buying_price
            selling_price := selling_price.getD stock.selling_price }

/-- Embedding of the two-row stock mutation of `transfer_stock` (inventory.py lines
1657 to 1703): the source must hold at least the transferred quantity (400 otherwise);
the source quantity drops by the transfer quantity with its prices untouched; the
destination row is created with the source prices when absent and otherwise blended by
the same weighted-average formula as a purchase. Returns (source, destination). -/
def transfer_stock (source_stock : Stock) (target_stockOpt : Option Stock) (qty : Int) :
    Except ApiError (Stock × Stock) :=
  if source_stock.quantity_on_hand < qty then
    .error ⟨400, "Insufficient source stock quantity"⟩
  else
    let source_buy := source_stock.buying_price
    let source_sell := source_stock.selling_price
    let source' := { source_stock with quantity_on_hand := source_stock.quantity_on_hand - qty }
    let target' :=
      match target_stockOpt with
      | none => (⟨qty, source_buy, source_sell⟩ : Stock)
      | some t =>
          let prev_qty := t.quantity_on_hand
          let new_qty := t.quantity_on_hand + qty
          { quantity_on_hand := new_qty
            buying_price := rheDiv (t.buying_price * prev_qty + source_buy * qty) new_qty
            selling_price := rheDiv (t.selling_price * prev_qty + source_sell * qty) new_qty }
    .ok (source', target')

/-- Embedding of the two-row stock mutation of `_reverse_transfer_impact` (inventory.py
lines 1769 to 1790): fails with 409 Conflict when the destination no longer holds the
transferred quantity; otherwise adds the quantity back to the source without price change
and removes the weighted contribution from the destination, leaving destination prices
as they are when the destination is drained to zero. Returns (source, destination). -/
def reverse_transfer_impact (source_stock target_stock : Stock)
    (qty buy sell : Int) : Except ApiError (Stock × Stock) :=
  if target_stock.quantity_on_hand < qty then
    .error ⟨409, "Cannot modify transfer because destination stock has already been consumed"⟩
  else
    let source' := { source_stock with quantity_on_hand := source_stock.quantity_on_hand + qty }
    let target_prev_qty := target_stock.quantity_on_hand
    let target_new_qty := target_prev_qty - qty
    let target' :=
      if 0 < target_new_qty then
        { quantity_on_hand := target_new_qty
          buying_price := rheDiv (target_stock.buying_price * target_prev_qty - buy * qty) target_new_qty
          selling_price := rheDiv (target_stock.selling_price * target_prev_qty - sell * qty) target_new_qty }
      else
        { target_stock with quantity_on_hand := target_new_qty }
    .ok (source', target')

/-- Embedding of the stock-and-snapshot core of `create_purchase` (inventory.py lines
578 to 618): the selling price defaults to the payload value, else to the current stock
selling price, else to the buying price; a missing Stock row is created with quantity 0
and those prices before `_apply_purchase_effect` runs. Returns the updated stock together
with the (buy, sell) snapshot stored on the Purchase ledger row. -/
def create_purchase_stock (stockOpt : Option Stock) (qty buy : Int)
    (unit_selling_price : Option Int) : Stock × Int × Int :=
  let sell :=
    match unit_selling_price, stockOpt with
    | some s, _ => s
    | none, some stock => stock.selling_price
    | none, none => buy
  let stock0 :=
    match stockOpt with
    | some stock => stock
    | none => ⟨0, buy, sell⟩
  (apply_purchase_effect stock0 qty buy sell, buy, sell)

/-- Embedding of the stock path of `update_purchase` (inventory.py lines 845 to 894):
first `_remove_purchase_effect` with the original stored purchase values, then
`_apply_purchase_effect` with the new values; a failure of the reversal aborts the
whole edit before the new effect is applied. -/
def update_purchase_stock (stock : Stock) (old_qty old_buy old_sell new_qty new_buy new_sell : Int) :
    Except ApiError Stock :=
  match remove_purchase_effect stock old_qty old_buy old_sell with
  | .error e => .error e
  | .ok s1 => .ok (apply_purchase_effect s1 new_qty new_buy new_sell)

/-- Embedding of the stock path of `delete_purchase` (inventory.py lines 897 to 927):
only `_remove_purchase_effect` with the stored purchase values. -/
def delete_purchase_stock (stock : Stock) (qty buy sell : Int) : Except ApiError Stock :=
  remove_purchase_effect stock qty buy sell

/-- Embedding of the stock write of `upsert_stock` (inventory.py lines 953 to 973):
the row for the (shop, product) pair is created when absent and in both cases its
quantity and prices are overwritten directly by the payload values, bypassing the
weighted-average effects. -/
def upsert_stock (stockOpt : Option Stock) (quantity_on_hand buying_price selling_price : Int) :
    Stock :=
  match stockOpt with
  | none => ⟨quantity_on_hand, buying_price, selling_price⟩
  | some _ => ⟨quantity_on_hand, buying_price, selling_price⟩

/-- Embedding of the stock write of `delete_stock` (inventory.py lines 1021 to 1047):
the Stock row is physically deleted from the database. -/
def delete_stock (_stock : Stock) : Option Stock :=
  none

/-- The exposed stock mutations named by the non-negativity property, acting on one Stock
row: apply or reverse a purchase effect, create a sale, adjust manually, transfer out of or
into the row, and reverse a transfer at the source or at the destination. -/
inductive StockOp where
  | purchaseApply (qty buy sell : Int)
  | purchaseRemove (qty buy sell : Int)
  | saleCreate (qty : Int) (unit_selling_price : Option Int)
  | adjust (quantity_delta : Int) (buying_price selling_price : Option Int)
  | transferOut (qty : Int)
  | transferIn (qty buy sell : Int)
  | transferReverseOut (qty : Int)
  | transferReverseIn (qty buy sell : Int)
deriving Repr, DecidableEq

/-- Validity of the request parameters of an operation, as enforced by the pydantic
schemas before any route body runs: every quantity field carries `Field(gt=0)`, while an
adjustment delta may be any signed integer. -/
def StockOp.valid : StockOp → Bool
  | .purchaseApply qty _ _ => 0 < qty
  | .purchaseRemove qty _ _ => 0 < qty
  | .saleCreate qty _ => 0 < qty
  | .adjust _ _ _ => true
  | .transferOut qty => 0 < qty
  | .transferIn qty _ _ => 0 < qty
  | .transferReverseOut qty => 0 < qty
  | .transferReverseIn qty _ _ => 0 < qty

/-- One step of the stock state machine: the effect of each exposed mutation on a single
Stock row, wired to the route embeddings above. Transfer-shaped operations act on this
row as source or as destination of `transfer_stock` and `_reverse_transfer_impact`
respectively, with the opposite row synthesized so that its own guard passes. -/
def StockOp.step (s : Stock) : StockOp → Except ApiError Stock
  | .purchaseApply qty buy sell => .ok (apply_purchase_effect s qty buy sell)
  | .purchaseRemove qty buy sell => remove_purchase_effect s qty buy sell
  | .saleCreate qty usp =>
      match create_sale s qty usp with
      | .error e => .error e
      | .ok (_, s') => .ok s'
  | .adjust d b l => adjust_stock s d b l
  | .transferOut qty =>
      match transfer_stock s none qty with
      | .error e => .error e
      | .ok (s', _) => .ok s'
  | .transferIn qty buy sell =>
      match transfer_stock ⟨qty, buy, sell⟩ (some s) qty with
      | .error e => .error e
      | .ok (_, d') => .ok d'
  | .transferReverseOut qty =>
      match reverse_transfer_impact s ⟨qty, 0, 0⟩ qty 0 0 with
      | .error e => .error e
      | .ok (s', _) => .ok s'
  | .transferReverseIn qty buy sell =>
      match reverse_transfer_impact ⟨0, 0, 0⟩ s qty buy sell with
      | .error e => .error e
      | .ok (_, d') => .ok d'

/-- Run a sequence of stock mutations. A failing operation raises an HTTPException, so
the surrounding transaction rolls back and the row is left exactly as it was. -/
def runOps (s : Stock) : List StockOp → Stock
  | [] => s
  | op :: rest =>
      match StockOp.step s op with
      | .ok s' => runOps s' rest
      | .error _ => runOps s rest

/-- Process a list of sale-return requests (quantity, restock flag) against one sale,
accumulating the quantities of the accepted returns. The already-returned total passed to
`create_sale_return` is recomputed from the accepted history on every request, exactly as
the route recomputes it with a sum query. -/
def run_sale_returns_aux (sale : Sale) : List Int → List (Int × Bool) → List Int
  | acc, [] => acc
  | acc, (qty, restock) :: rest =>
      match create_sale_return sale acc.sum qty restock none with
      | .ok (ret, _) => run_sale_returns_aux sale (acc ++ [ret.quantity]) rest
      | .error _ => run_sale_returns_aux sale acc rest

/-- The quantities of the accepted returns after a list of requests against one sale. -/
def run_sale_returns (sale : Sale) (reqs : List (Int × Bool)) : List Int :=
  run_sale_returns_aux sale [] reqs

/-- The operations the inventory router exposes that touch a given Stock row, acting on
an optional row (present or absent). Ledger parameters that do not influence the row are
omitted. -/
inductive EndpointOp where
  | purchaseCreate (qty buy : Int) (unit_selling_price : Option Int)
  | purchaseUpdate (old_qty old_buy old_sell new_qty new_buy new_sell : Int)
  | purchaseDelete (qty buy sell : Int)
  | saleCreate (qty : Int) (unit_selling_price : Option Int)
  | saleReturnCreate (sale : Sale) (already_returned qty : Int) (restock : Bool)
  | stockAdjust (quantity_delta : Int) (buying_price selling_price : Option Int)
  | transferOut (qty : Int)
  | transferIn (qty buy sell : Int)
  | transferReverseOut (qty : Int)
  | transferReverseIn (qty buy sell : Int)
  | stockUpsert (quantity_on_hand buying_price selling_price : Int)
  | stockDelete
deriving DecidableEq

/-- One step of the endpoint machine on an optional Stock row, wired to the route
embeddings above, with the NotFound and Conflict guards each route raises when the row it
needs is absent (inventory.py lines 850, 916, 1167, 1275, 1665, 1753 and 1764). -/
def EndpointOp.stepE (o : Option Stock) : EndpointOp → Except ApiError (Option Stock)
  | .purchaseCreate qty buy usp => .ok (some (create_purchase_stock o qty buy usp).1)
  | .purchaseUpdate oq ob osell nq nb nsell =>
      match o with
      | none => .error ⟨409, "Stock record missing for purchase"⟩
      | some s =>
          match update_purchase_stock s oq ob osell nq nb nsell with
          | .error e => .error e
          | .ok s' => .ok (some s')
  | .purchaseDelete qty buy sell =>
      match o with
      | none => .error ⟨409, "Stock record missing for purchase"⟩
      | some s =>
          match delete_purchase_stock s qty buy sell with
          | .error e => .error e
          | .ok s' => .ok (some s')
  | .saleCreate qty usp =>
      match o with
      | none => .error ⟨404, "Stock record not found"⟩
      | some s =>
          match create_sale s qty usp with
          | .error e => .error e
          | .ok (_, s') => .ok (some s')
  | .saleReturnCreate sale already qty restock =>
      match create_sale_return sale already qty restock o with
      | .error e => .error e
      | .ok (_, o') => .ok o'
  | .stockAdjust d b l =>
      match o with
      | none => .error ⟨404, "Stock record not found"⟩
      | some s =>
          match adjust_stock s d b l with
          | .error e => .error e
          | .ok s' => .ok (some s')
  | .transferOut qty =>
      match o with
      | none => .error ⟨404, "Source stock record not found"⟩
      | some s =>
          match transfer_stock s none qty with
          | .error e => .error e
          | .ok (s', _) => .ok (some s')
  | .transferIn qty buy sell =>
      match transfer_stock ⟨qty, buy, sell⟩ o qty with
      | .error e => .error e
      | .ok (_, d') => .ok (some d')
  | .transferReverseOut qty =>
      match o with
      | none => .error ⟨409, "Source stock record missing for transfer"⟩
      | some s =>
          match reverse_transfer_impact s ⟨qty, 0, 0⟩ qty 0 0 with
          | .error e => .error e
          | .ok (s', _) => .ok (some s')
  | .transferReverseIn qty buy sell =>
      match o with
      | none => .error ⟨409, "Destination stock record missing for transfer"⟩
      | some s =>
          match reverse_transfer_impact ⟨0, 0, 0⟩ s qty buy sell with
          | .error e => .error e
          | .ok (_, d') => .ok (some d')
  | .stockUpsert q b l => .ok (some (upsert_stock o q b l))
  | .stockDelete =>
      match o with
      | none => .error ⟨404, "Stock record not found"⟩
      | some s => .ok (delete_stock s)

theorem rheDiv_exact (n e : Int) (hn : 0 < n) : rheDiv (n * e) n = e := by
  unfold rheDiv
  have h1 : Int.ediv (n * e) n = e := Int.mul_ediv_cancel_left e hn.ne'
  have h2 : Int.emod (n * e) n = 0 := Int.mul_emod_right n e
  simp [h1, h2, hn]

/-- C1 counterexample: from the state S = (quantity 1, both prices 10.00) the purchase
effect (qty 2, price 10.01) applied then removed with the same values yields quantity 1
with both prices 10.01: the weighted average 30.02 / 3 rounds up to 10.01 and the reversal
amplifies that rounding, so the prices do not equal those of S although the quantity was
never driven to zero. -/
theorem c1_roundtrip_counterexample :
    remove_purchase_effect (apply_purchase_effect ⟨1, 1000, 1000⟩ 2 1001 1001) 2 1001 1001 =
      .ok (⟨1, 1001, 1001⟩ : Stock) ∧ (⟨1, 1001, 1001⟩ : Stock) ≠ ⟨1, 1000, 1000⟩ := by
  constructor
  · decide
  · decide

/-- C1 amended: for a Stock S with positive quantity and a purchase effect with positive
quantity, applying then removing the effect with the same values always restores the
quantity exactly, and restores each price exactly whenever the apply-step weighted average
for that price divides without remainder (no quantization loss); when the division does
round, the reversal can amplify the rounding and shift the price, as the counterexample
shows. -/
theorem c1_roundtrip (S : Stock) (k buy sell : Int)
    (hq : 0 < S.quantity_on_hand) (hk : 0 < k) :
    ∃ S', remove_purchase_effect (apply_purchase_effect S k buy sell) k buy sell = .ok S' ∧
      S'.quantity_on_hand = S.quantity_on_hand ∧
      ((S.quantity_on_hand + k) ∣ (S.buying_price * S.quantity_on_hand + buy * k) →
        S'.buying_price = S.buying_price) ∧
      ((S.quantity_on_hand + k) ∣ (S.selling_price * S.quantity_on_hand + sell * k) →
        S'.selling_price = S.selling_price) := by
  have hq0 : ¬ (S.quantity_on_hand = 0) := by omega
  have hlt : ¬ (S.quantity_on_hand + k < k) := by omega
  have happ : apply_purchase_effect S k buy sell =
      ⟨S.quantity_on_hand + k,
        rheDiv (S.buying_price * S.quantity_on_hand + buy * k) (S.quantity_on_hand + k),
        rheDiv (S.selling_price * S.quantity_on_hand + sell * k) (S.quantity_on_hand + k)⟩ := by
    simp [apply_purchase_effect, hq0]
  set b1 := rheDiv (S.buying_price * S.quantity_on_hand + buy * k) (S.quantity_on_hand + k)
    with hb1def
  set l1 := rheDiv (S.selling_price * S.quantity_on_hand + sell * k) (S.quantity_on_hand + k)
    with hl1def
  have hrem : remove_purchase_effect ⟨S.quantity_on_hand + k, b1, l1⟩ k buy sell =
      .ok ⟨S.quantity_on_hand,
        rheDiv (b1 * (S.quantity_on_hand + k) - buy * k) S.quantity_on_hand,
        rheDiv (l1 * (S.quantity_on_hand + k) - sell * k) S.quantity_on_hand⟩ := by
    simp [remove_purchase_effect, add_sub_cancel_right, hlt, hq0]
  refine ⟨⟨S.quantity_on_hand,
      rheDiv (b1 * (S.quantity_on_hand + k) - buy * k) S.quantity_on_hand,
      rheDiv (l1 * (S.quantity_on_hand + k) - sell * k) S.quantity_on_hand⟩,
    by rw [happ, hrem], rfl, ?_, ?_⟩
  · rintro ⟨e, he⟩
    have hb1 : b1 = e := by
      rw [hb1def, he]
      exact rheDiv_exact _ _ (by omega)
    show rheDiv (b1 * (S.quantity_on_hand + k) - buy * k) S.quantity_on_hand = S.buying_price
    have hnum : b1 * (S.quantity_on_hand + k) - buy * k =
        S.quantity_on_hand * S.buying_price := by
      rw [hb1]; linear_combination -he
    rw [hnum, rheDiv_exact _ _ hq]
  · rintro ⟨e, he⟩
    have hl1 : l1 = e := by
      rw [hl1def, he]
      exact rheDiv_exact _ _ (by omega)
    show rheDiv (l1 * (S.quantity_on_hand + k) - sell * k) S.quantity_on_hand = S.selling_price
    have hnum : l1 * (S.quantity_on_hand + k) - sell * k =
        S.quantity_on_hand * S.selling_price := by
      rw [hl1]; linear_combination -he
    rw [hnum, rheDiv_exact _ _ hq]

/-- C1 witness: the amended round-trip at the concrete state (quantity 2, buy 10.00,
sell 15.00) with the purchase effect (qty 2, buy 12.00, sell 17.00), where both weighted
sums divide exactly by the new quantity 4. -/
theorem c1_roundtrip_witness :
    ∃ S', remove_purchase_effect (apply_purchase_effect ⟨2, 1000, 1500⟩ 2 1200 1700) 2 1200 1700 =
        .ok S' ∧
      S'.quantity_on_hand = (Stock.mk 2 1000 1500).quantity_on_hand ∧
      (((Stock.mk 2 1000 1500).quantity_on_hand + 2) ∣
          ((Stock.mk 2 1000 1500).buying_price * (Stock.mk 2 1000 1500).quantity_on_hand + 1200 * 2) →
        S'.buying_price = (Stock.mk 2 1000 1500).buying_price) ∧
      (((Stock.mk 2 1000 1500).quantity_on_hand + 2) ∣
          ((Stock.mk 2 1000 1500).selling_price * (Stock.mk 2 1000 1500).quantity_on_hand + 1700 * 2) →
        S'.selling_price = (Stock.mk 2 1000 1500).selling_price) :=
  c1_roundtrip ⟨2, 1000, 1500⟩ 2 1200 1700 (by decide) (by decide)

/-- C3: two purchases (k1, p1) then (k2, p2) into an empty stock leave a buying price
equal to the weighted average (k1 p1 + k2 p2) / (k1 + k2) rounded to 2 decimals. -/
theorem c3_weighted_average (S : Stock) (k1 p1 s1 k2 p2 s2 : Int)
    (h0 : S.quantity_on_hand = 0) (hk1 : 0 < k1) (_hk2 : 0 < k2) :
    (apply_purchase_effect (apply_purchase_effect S k1 p1 s1) k2 p2 s2).buying_price =
      rheDiv (k1 * p1 + k2 * p2) (k1 + k2) := by
  have hk10 : ¬ ((k1 : Int) = 0) := by omega
  have h1 : apply_purchase_effect S k1 p1 s1 = ⟨k1, p1, s1⟩ := by
    simp [apply_purchase_effect, h0]
  rw [h1]
  have h2 : (apply_purchase_effect ⟨k1, p1, s1⟩ k2 p2 s2).buying_price =
      rheDiv (p1 * k1 + p2 * k2) (k1 + k2) := by
    simp [apply_purchase_effect, hk10]
  rw [h2]
  congr 1
  ring

/-- C3 witness: purchase (100, 10.00) then (50, 13.00) into an empty stock gives
buying price (100 times 1000 + 50 times 1300) / 150 = 1100 cents, that is 11.00. -/
theorem c3_weighted_average_witness :
    (0 : Int) < 100 ∧ (0 : Int) < 50 ∧
      (apply_purchase_effect (apply_purchase_effect ⟨0, 777, 777⟩ 100 1000 1500) 50 1300 1600).buying_price = 1100 :=
  ⟨by decide, by decide,
    (c3_weighted_average ⟨0, 777, 777⟩ 100 1000 1500 50 1300 1600 rfl (by decide) (by decide)).trans
      (by decide)⟩

/-- Applying a purchase effect with a non-negative quantity keeps the quantity on hand
non-negative. -/
theorem apply_purchase_effect_qty_nonneg (s : Stock) (qty buy sell : Int)
    (hs : 0 ≤ s.quantity_on_hand) (hq : 0 ≤ qty) :
    0 ≤ (apply_purchase_effect s qty buy sell).quantity_on_hand := by
  simp only [apply_purchase_effect]
  split
  · exact hq
  · show 0 ≤ s.quantity_on_hand + qty
    omega

/-- Inversion for a successful `_remove_purchase_effect`: the guard held and the quantity
dropped by exactly the removed quantity. -/
theorem remove_purchase_effect_ok (stock : Stock) (qty buy sell : Int) (s' : Stock)
    (h : remove_purchase_effect stock qty buy sell = .ok s') :
    ¬ (stock.quantity_on_hand < qty) ∧
      s'.quantity_on_hand = stock.quantity_on_hand - qty := by
  simp only [remove_purchase_effect] at h
  split_ifs at h with h1 h2
  · injection h with h
    subst h
    exact ⟨h1, by show (0:Int) = stock.quantity_on_hand - qty; omega⟩
  · injection h with h
    subst h
    exact ⟨h1, rfl⟩

/-- Inversion for a successful `create_sale`: the guard held, the quantity dropped by the
sold quantity and the prices were left untouched. -/
theorem create_sale_ok (stock : Stock) (qty : Int) (usp : Option Int) (sale : Sale) (s' : Stock)
    (h : create_sale stock qty usp = .ok (sale, s')) :
    ¬ (stock.quantity_on_hand < qty) ∧
      s' = { stock with quantity_on_hand := stock.quantity_on_hand - qty } := by
  simp only [create_sale] at h
  split_ifs at h with h1
  injection h with h
  injection h with h2 h3
  exact ⟨h1, h3.symm⟩

/-- Inversion for a successful `adjust_stock`: the resulting quantity is non-negative and
the fields are exactly the adjusted ones. -/
theorem adjust_stock_ok (stock : Stock) (d : Int) (b l : Option Int) (s' : Stock)
    (h : adjust_stock stock d b l = .ok s') :
    0 ≤ stock.quantity_on_hand + d ∧
      s' = ⟨stock.quantity_on_hand + d, b.getD stock.buying_price, l.getD stock.selling_price⟩ := by
  simp only [adjust_stock] at h
  split_ifs at h with h1 h2
  injection h with h
  exact ⟨by omega, h.symm⟩

/-- Inversion for a successful `transfer_stock`: the source guard held, the source lost
exactly the transferred quantity with prices untouched, and the destination gained exactly
the transferred quantity (a missing destination row starts from zero). -/
theorem transfer_stock_ok (src : Stock) (tgt : Option Stock) (qty : Int) (s' d' : Stock)
    (h : transfer_stock src tgt qty = .ok (s', d')) :
    ¬ (src.quantity_on_hand < qty) ∧
      s' = { src with quantity_on_hand := src.quantity_on_hand - qty } ∧
      d'.quantity_on_hand = (tgt.map Stock.quantity_on_hand).getD 0 + qty := by
  simp only [transfer_stock] at h
  split_ifs at h with h1
  injection h with h
  injection h with h2 h3
  subst h2
  subst h3
  refine ⟨h1, rfl, ?_⟩
  cases tgt with
  | none => show qty = 0 + qty; omega
  | some t => show t.quantity_on_hand + qty = t.quantity_on_hand + qty; rfl

/-- Inversion for a successful `_reverse_transfer_impact`: the destination guard held, the
source gained the quantity back with prices untouched, and the destination lost exactly
the transferred quantity. -/
theorem reverse_transfer_impact_ok (src tgt : Stock) (qty buy sell : Int) (s' d' : Stock)
    (h : reverse_transfer_impact src tgt qty buy sell = .ok (s', d')) :
    ¬ (tgt.quantity_on_hand < qty) ∧
      s' = { src with quantity_on_hand := src.quantity_on_hand + qty } ∧
      d'.quantity_on_hand = tgt.quantity_on_hand - qty := by
  simp only [reverse_transfer_impact] at h
  split_ifs at h with h1 h2 <;>
    · injection h with h
      injection h with h3 h4
      subst h3
      subst h4
      exact ⟨h1, rfl, rfl⟩

/-- Inversion for a successful `create_sale_return`: the remaining-quantity guards held,
the ledger row records the requested quantity, and the stock row is only changed when
restocking, by adding the quantity back (created from the sale snapshots when absent). -/
theorem create_sale_return_ok (sale : Sale) (already qty : Int) (restock : Bool)
    (o : Option Stock) (r : SaleReturn) (o' : Option Stock)
    (h : create_sale_return sale already qty restock o = .ok (r, o')) :
    0 < sale.quantity - already ∧ qty ≤ sale.quantity - already ∧ r.quantity = qty ∧
      (restock = false → o' = o) ∧
      (restock = true → o = none →
        o' = some ⟨qty, sale.unit_buying_price, sale.unit_selling_price⟩) ∧
      (restock = true → ∀ st, o = some st →
        o' = some { st with quantity_on_hand := st.quantity_on_hand + qty }) := by
  simp only [create_sale_return] at h
  split_ifs at h with h1 h2 h3
  · injection h with h
    injection h with h4 h5
    subst h4
    subst h5
    refine ⟨by omega, by omega, rfl, ?_, ?_, ?_⟩
    · intro hf
      rw [h3] at hf
      exact Bool.noConfusion hf
    · intro _ ho
      subst ho
      rfl
    · intro _ st ho
      subst ho
      rfl
  · injection h with h
    injection h with h4 h5
    subst h4
    subst h5
    refine ⟨by omega, by omega, rfl, fun _ => rfl, ?_, ?_⟩
    · intro ht
      exact absurd ht h3
    · intro ht
      exact absurd ht h3

/-- Every valid operation that succeeds from a non-negative quantity leaves the quantity
on hand non-negative. -/
theorem step_nonneg (s : Stock) (op : StockOp) (hs : 0 ≤ s.quantity_on_hand)
    (hv : op.valid = true) (s' : Stock) (h : StockOp.step s op = .ok s') :
    0 ≤ s'.quantity_on_hand := by
  cases op with
  | purchaseApply qty buy sell =>
      simp only [StockOp.valid, decide_eq_true_eq] at hv
      simp only [StockOp.step] at h
      injection h with h
      subst h
      exact apply_purchase_effect_qty_nonneg s qty buy sell hs (le_of_lt hv)
  | purchaseRemove qty buy sell =>
      simp only [StockOp.step] at h
      obtain ⟨h1, h2⟩ := remove_purchase_effect_ok s qty buy sell s' h
      omega
  | saleCreate qty usp =>
      simp only [StockOp.step] at h
      rcases hE : create_sale s qty usp with e | ⟨sale, s2⟩
      · rw [hE] at h; exact Except.noConfusion h
      · rw [hE] at h
        injection h with h
        subst h
        obtain ⟨h1, h2⟩ := create_sale_ok s qty usp sale s2 hE
        subst h2
        show 0 ≤ s.quantity_on_hand - qty
        omega
  | adjust d b l =>
      simp only [StockOp.step] at h
      obtain ⟨h1, h2⟩ := adjust_stock_ok s d b l s' h
      subst h2
      exact h1
  | transferOut qty =>
      simp only [StockOp.step] at h
      rcases hE : transfer_stock s none qty with e | ⟨s2, d2⟩
      · rw [hE] at h; exact Except.noConfusion h
      · rw [hE] at h
        injection h with h
        subst h
        obtain ⟨h1, h2, h3⟩ := transfer_stock_ok s none qty s2 d2 hE
        subst h2
        show 0 ≤ s.quantity_on_hand - qty
        omega
  | transferIn qty buy sell =>
      simp only [StockOp.valid, decide_eq_true_eq] at hv
      simp only [StockOp.step] at h
      rcases hE : transfer_stock ⟨qty, buy, sell⟩ (some s) qty with e | ⟨s2, d2⟩
      · rw [hE] at h; exact Except.noConfusion h
      · rw [hE] at h
        injection h with h
        subst h
        obtain ⟨h1, h2, h3⟩ := transfer_stock_ok _ _ qty s2 d2 hE
        simp only [Option.map, Option.getD] at h3
        omega
  | transferReverseOut qty =>
      simp only [StockOp.valid, decide_eq_true_eq] at hv
      simp only [StockOp.step] at h
      rcases hE : reverse_transfer_impact s ⟨qty, 0, 0⟩ qty 0 0 with e | ⟨s2, d2⟩
      · rw [hE] at h; exact Except.noConfusion h
      · rw [hE] at h
        injection h with h
        subst h
        obtain ⟨h1, h2, h3⟩ := reverse_transfer_impact_ok _ _ qty 0 0 s2 d2 hE
        subst h2
        show 0 ≤ s.quantity_on_hand + qty
        omega
  | transferReverseIn qty buy sell =>
      simp only [StockOp.step] at h
      rcases hE : reverse_transfer_impact ⟨0, 0, 0⟩ s qty buy sell with e | ⟨s2, d2⟩
      · rw [hE] at h; exact Except.noConfusion h
      · rw [hE] at h
        injection h with h
        subst h
        obtain ⟨h1, h2, h3⟩ := reverse_transfer_impact_ok _ _ qty buy sell s2 d2 hE
        omega

/-- C2: starting from a Stock with non-negative quantity on hand, any sequence of the
exposed stock mutations (apply/reverse purchase effect, sale creation, manual adjustment,
transfer out/in, transfer reversal at source/destination) with schema-valid parameters
keeps quantity_on_hand non-negative after every step; a step that fails raises an
HTTPException and, per the rollback semantics of `runOps`, leaves the row unchanged. -/
theorem c2_nonnegativity (s : Stock) (ops : List StockOp)
    (hs : 0 ≤ s.quantity_on_hand) (hv : ops.all StockOp.valid = true) :
    0 ≤ (runOps s ops).quantity_on_hand := by
  induction ops generalizing s with
  | nil => simpa [runOps] using hs
  | cons op rest ih =>
      simp only [List.all_cons, Bool.and_eq_true] at hv
      obtain ⟨hv1, hv2⟩ := hv
      rcases hE : StockOp.step s op with e | s2
      · simp only [runOps, hE]
        exact ih s hs hv2
      · simp only [runOps, hE]
        exact ih s2 (step_nonneg s op hs hv1 s2 hE) hv2

/-- C2 witness: a concrete run mixing successful purchases, sales, a reversal, an
adjustment and transfers, including steps that fail their guards, starting from an empty
stock. -/
theorem c2_nonnegativity_witness :
    (0 : Int) ≤ (Stock.mk 0 500 500).quantity_on_hand ∧
      ([StockOp.purchaseApply 5 1000 1200, StockOp.saleCreate 3 none,
        StockOp.saleCreate 10 none, StockOp.purchaseRemove 2 1000 1200,
        StockOp.adjust (-10) none none, StockOp.transferOut 1,
        StockOp.transferReverseIn 1 1000 1200].all StockOp.valid = true) ∧
      0 ≤ (runOps ⟨0, 500, 500⟩
        [StockOp.purchaseApply 5 1000 1200, StockOp.saleCreate 3 none,
         StockOp.saleCreate 10 none, StockOp.purchaseRemove 2 1000 1200,
         StockOp.adjust (-10) none none, StockOp.transferOut 1,
         StockOp.transferReverseIn 1 1000 1200]).quantity_on_hand :=
  ⟨by decide, by decide, c2_nonnegativity _ _ (by decide) (by decide)⟩

/-- Helper for the return bound: if the accepted returns so far sum to at most the sale
quantity, processing further requests preserves that bound, since every accepted request
fits into the remaining quantity recomputed from the history. -/
theorem run_sale_returns_aux_sum_le (sale : Sale) (reqs : List (Int × Bool)) :
    ∀ acc : List Int, acc.sum ≤ sale.quantity →
      (run_sale_returns_aux sale acc reqs).sum ≤ sale.quantity := by
  induction reqs with
  | nil =>
      intro acc h
      simpa [run_sale_returns_aux] using h
  | cons head rest ih =>
      obtain ⟨qty, restock⟩ := head
      intro acc hacc
      rcases hE : create_sale_return sale acc.sum qty restock none with e | ⟨r, o'⟩
      · simp only [run_sale_returns_aux, hE]
        exact ih acc hacc
      · obtain ⟨hb1, hb2, hb3, -⟩ := create_sale_return_ok sale acc.sum qty restock none r o' hE
        simp only [run_sale_returns_aux, hE]
        apply ih
        rw [List.sum_append]
        simp [hb3]
        omega

/-- C4 (amended): for a sale of positive quantity, the accepted SaleReturn quantities sum
to at most the sale quantity after any sequence of return requests, the remaining quantity
being recomputed from the full history on every request; a request for one more unit than
the sale quantity when nothing has been returned is rejected, but with a Validation
(HTTP 400) error rather than a Conflict. -/
theorem c4_return_bound (sale : Sale) (reqs : List (Int × Bool)) (hQ : 0 < sale.quantity) :
    (run_sale_returns sale reqs).sum ≤ sale.quantity ∧
      ∀ (restock : Bool) (stockOpt : Option Stock),
        create_sale_return sale 0 (sale.quantity + 1) restock stockOpt =
          .error ⟨400, "Return quantity exceeds remaining sale quantity"⟩ := by
  constructor
  · exact run_sale_returns_aux_sum_le sale reqs [] (by simpa using le_of_lt hQ)
  · intro restock stockOpt
    have h1 : ¬ (sale.quantity - 0 ≤ 0) := by omega
    have h2 : sale.quantity - 0 < sale.quantity + 1 := by omega
    simp only [create_sale_return]
    rw [if_neg h1, if_pos h2]

/-- C4 counterexample to the claimed error kind: a return request for 41 units against a
sale of 40 with nothing yet returned is rejected with HTTP status 400 (a Validation
error), not with 409 Conflict as the claim states. -/
theorem c4_conflict_counterexample :
    create_sale_return ⟨40, 1000, 1500, 60000, 40000, 20000⟩ 0 41 true none =
      .error ⟨400, "Return quantity exceeds remaining sale quantity"⟩ ∧
    (400 : Nat) ≠ 409 :=
  ⟨by decide, by decide⟩

/-- C4 witness: sale of 40, requests for 10 (accepted), 35 (rejected, exceeds the 30
remaining) and 30 (accepted): the accepted quantities sum to 40, within the bound, and
the over-quantity request for 41 fails with the 400 error. -/
theorem c4_return_bound_witness :
    (0 : Int) < 40 ∧
      (run_sale_returns ⟨40, 1000, 1500, 60000, 40000, 20000⟩
        [(10, true), (35, false), (30, true)]).sum ≤ 40 ∧
      create_sale_return ⟨40, 1000, 1500, 60000, 40000, 20000⟩ 0 (40 + 1) true none =
        .error ⟨400, "Return quantity exceeds remaining sale quantity"⟩ :=
  ⟨by decide,
   (c4_return_bound ⟨40, 1000, 1500, 60000, 40000, 20000⟩
     [(10, true), (35, false), (30, true)] (by decide)).1,
   (c4_return_bound ⟨40, 1000, 1500, 60000, 40000, 20000⟩ [] (by decide)).2 true none⟩

/-- C5: whenever the stored purchase quantity exceeds the current quantity on hand, the
purchase edit fails with the 409 Conflict from `_remove_purchase_effect` and the whole
operation produces no new state: the reversal short-circuits before the new effect is
applied, so the Stock row is left exactly as it was under the rolled-back transaction. -/
theorem c5_edit_rejected (stock : Stock)
    (old_qty old_buy old_sell new_qty new_buy new_sell : Int)
    (h : stock.quantity_on_hand < old_qty) :
    update_purchase_stock stock old_qty old_buy old_sell new_qty new_buy new_sell =
        .error ⟨409, "Cannot modify purchase because purchased stock has already been consumed"⟩ ∧
      delete_purchase_stock stock old_qty old_buy old_sell =
        .error ⟨409, "Cannot modify purchase because purchased stock has already been consumed"⟩ := by
  constructor
  · simp only [update_purchase_stock, remove_purchase_effect]
    rw [if_pos h]
  · simp only [delete_purchase_stock, remove_purchase_effect]
    rw [if_pos h]

/-- C5 witness: editing a purchase of 2 units when only 1 remains on hand fails with the
Conflict error. -/
theorem c5_edit_rejected_witness :
    (Stock.mk 1 1000 1500).quantity_on_hand < 2 ∧
      update_purchase_stock ⟨1, 1000, 1500⟩ 2 1000 1500 3 1100 1600 =
          .error ⟨409, "Cannot modify purchase because purchased stock has already been consumed"⟩ ∧
        delete_purchase_stock ⟨1, 1000, 1500⟩ 2 1000 1500 =
          .error ⟨409, "Cannot modify purchase because purchased stock has already been consumed"⟩ :=
  ⟨by decide, c5_edit_rejected ⟨1, 1000, 1500⟩ 2 1000 1500 3 1100 1600 (by decide)⟩

/-- C6: a successful transfer of quantity T moves exactly T units: the source quantity
drops by T, the destination quantity rises by T (a missing destination row is created
holding T), and the total across the two rows is conserved. -/
theorem c6_transfer_conservation (src : Stock) (tgt : Option Stock) (T : Int) (s' d' : Stock)
    (h : transfer_stock src tgt T = .ok (s', d')) :
    s'.quantity_on_hand = src.quantity_on_hand - T ∧
      d'.quantity_on_hand = (tgt.map Stock.quantity_on_hand).getD 0 + T ∧
      s'.quantity_on_hand + d'.quantity_on_hand =
        src.quantity_on_hand + (tgt.map Stock.quantity_on_hand).getD 0 := by
  obtain ⟨h1, h2, h3⟩ := transfer_stock_ok src tgt T s' d' h
  subst h2
  refine ⟨rfl, h3, ?_⟩
  show src.quantity_on_hand - T + d'.quantity_on_hand = _
  omega

/-- C6 witness: transferring 4 units from a source of 10 into a destination of 5 yields
quantities 6 and 9, conserving the total of 15. -/
theorem c6_transfer_conservation_witness :
    transfer_stock ⟨10, 1000, 1500⟩ (some ⟨5, 2000, 2500⟩) 4 =
        .ok (⟨6, 1000, 1500⟩, ⟨9, 1556, 2056⟩) ∧
      (6 : Int) + 9 = 10 + 5 :=
  ⟨by decide,
   (c6_transfer_conservation ⟨10, 1000, 1500⟩ (some ⟨5, 2000, 2500⟩) 4
     ⟨6, 1000, 1500⟩ ⟨9, 1556, 2056⟩ (by decide)).2.2⟩

/-- C7: the purchase-then-sale scenario: purchasing 100 units at buy 10.00 and sell 15.00
into an empty stock, then selling 40 with no caller-supplied price, leaves quantity 60
with the buying price still 10.00, and yields a Sale snapshotting buy 10.00 and sell
15.00 with revenue 600.00, cost 400.00 and profit 200.00 (all amounts in cents). -/
theorem c7_sale_scenario :
    create_sale (create_purchase_stock none 100 1000 (some 1500)).1 40 none =
      .ok ({ quantity := 40, unit_buying_price := 1000, unit_selling_price := 1500,
             revenue := 60000, cost := 40000, profit := 20000 },
           ⟨60, 1000, 1500⟩) := by
  decide

/-- C8: sales, restocking returns on an existing row, and transfers out never change the
Stock buying or selling price: a sale only snapshots the prices, a restocking return only
adds quantity back, and a transfer leaves the source prices untouched. -/
theorem c8_frame :
    (∀ (stock : Stock) (qty : Int) (usp : Option Int) (sale : Sale) (s' : Stock),
        create_sale stock qty usp = .ok (sale, s') →
        s'.buying_price = stock.buying_price ∧ s'.selling_price = stock.selling_price) ∧
      (∀ (sale : Sale) (already qty : Int) (st : Stock) (r : SaleReturn) (o' : Option Stock),
        create_sale_return sale already qty true (some st) = .ok (r, o') →
        ∃ st', o' = some st' ∧ st'.buying_price = st.buying_price ∧
          st'.selling_price = st.selling_price) ∧
      (∀ (src : Stock) (tgt : Option Stock) (T : Int) (s' d' : Stock),
        transfer_stock src tgt T = .ok (s', d') →
        s'.buying_price = src.buying_price ∧ s'.selling_price = src.selling_price) := by
  refine ⟨?_, ?_, ?_⟩
  · intro stock qty usp sale s' h
    obtain ⟨h1, h2⟩ := create_sale_ok stock qty usp sale s' h
    subst h2
    exact ⟨rfl, rfl⟩
  · intro sale already qty st r o' h
    obtain ⟨-, -, -, -, -, h6⟩ := create_sale_return_ok sale already qty true (some st) r o' h
    exact ⟨{ st with quantity_on_hand := st.quantity_on_hand + qty }, h6 rfl st rfl, rfl, rfl⟩
  · intro src tgt T s' d' h
    obtain ⟨h1, h2, h3⟩ := transfer_stock_ok src tgt T s' d' h
    subst h2
    exact ⟨rfl, rfl⟩

/-- C8 witness: a concrete sale of 4 from a stock of 10, a concrete restocking return of
3 onto a stock of 5, and a concrete transfer of 4 out of a stock of 10, each leaving the
respective prices unchanged. -/
theorem c8_frame_witness :
    ((1000 : Int) = 1000 ∧ (1500 : Int) = 1500) ∧
      (∃ st', (some (Stock.mk 8 2000 2500) : Option Stock) = some st' ∧
        st'.buying_price = 2000 ∧ st'.selling_price = 2500) ∧
      ((1000 : Int) = 1000 ∧ (1500 : Int) = 1500) :=
  ⟨c8_frame.1 ⟨10, 1000, 1500⟩ 4 none ⟨4, 1000, 1500, 6000, 4000, 2000⟩ ⟨6, 1000, 1500⟩
     (by decide),
   c8_frame.2.1 ⟨10, 1100, 1600, 16000, 11000, 5000⟩ 0 3 ⟨5, 2000, 2500⟩
     ⟨3, 1100, 1600, 4800, 3300, 1500, true⟩ (some ⟨8, 2000, 2500⟩) (by decide),
   c8_frame.2.2 ⟨10, 1000, 1500⟩ none 4 ⟨6, 1000, 1500⟩ ⟨4, 1000, 1500⟩ (by decide)⟩

/-- C9 counterexample: the exposed stock delete endpoint physically deletes a Stock row:
stepping it on a present row with quantity 5 succeeds and leaves no row, contradicting the
claim that no exposed operation physically deletes a Stock row. -/
theorem c9_delete_counterexample :
    EndpointOp.stepE (some ⟨5, 1000, 1500⟩) .stockDelete = .ok none ∧
      (none : Option Stock).isSome = false :=
  ⟨by decide, by decide⟩

/-- C9 (amended): every exposed stock-touching operation other than the stock delete
endpoint leaves the Stock row in existence when it succeeds; the stock upsert endpoint,
however, overwrites quantity and prices directly with the payload values, bypassing the
weighted-average effects, and the stock delete endpoint physically removes the row. -/
theorem c9_row_persistence :
    (∀ (s : Stock) (op : EndpointOp), op ≠ .stockDelete → ∀ o',
        EndpointOp.stepE (some s) op = .ok o' → o'.isSome = true) ∧
      (∀ (stockOpt : Option Stock) (q b l : Int), upsert_stock stockOpt q b l = ⟨q, b, l⟩) := by
  constructor
  · intro s op hne o' h
    cases op with
    | purchaseCreate qty buy usp =>
        simp only [EndpointOp.stepE] at h
        injection h with h
        subst h
        rfl
    | purchaseUpdate oq ob osl nq nb nsl =>
        simp only [EndpointOp.stepE] at h
        rcases hE : update_purchase_stock s oq ob osl nq nb nsl with e | s2 <;> rw [hE] at h
        · exact Except.noConfusion h
        · injection h with h; subst h; rfl
    | purchaseDelete qty buy sell =>
        simp only [EndpointOp.stepE] at h
        rcases hE : delete_purchase_stock s qty buy sell with e | s2 <;> rw [hE] at h
        · exact Except.noConfusion h
        · injection h with h; subst h; rfl
    | saleCreate qty usp =>
        simp only [EndpointOp.stepE] at h
        rcases hE : create_sale s qty usp with e | ⟨sl, s2⟩ <;> rw [hE] at h
        · exact Except.noConfusion h
        · injection h with h; subst h; rfl
    | saleReturnCreate sale already qty restock =>
        simp only [EndpointOp.stepE] at h
        rcases hE : create_sale_return sale already qty restock (some s) with e | ⟨r, o2⟩ <;>
          rw [hE] at h
        · exact Except.noConfusion h
        · injection h with h
          subst h
          obtain ⟨-, -, -, h4, -, h6⟩ :=
            create_sale_return_ok sale already qty restock (some s) r o2 hE
          cases restock with
          | false => rw [h4 rfl]; rfl
          | true => rw [h6 rfl s rfl]; rfl
    | stockAdjust d b l =>
        simp only [EndpointOp.stepE] at h
        rcases hE : adjust_stock s d b l with e | s2 <;> rw [hE] at h
        · exact Except.noConfusion h
        · injection h with h; subst h; rfl
    | transferOut qty =>
        simp only [EndpointOp.stepE] at h
        rcases hE : transfer_stock s none qty with e | ⟨s2, d2⟩ <;> rw [hE] at h
        · exact Except.noConfusion h
        · injection h with h; subst h; rfl
    | transferIn qty buy sell =>
        simp only [EndpointOp.stepE] at h
        rcases hE : transfer_stock ⟨qty, buy, sell⟩ (some s) qty with e | ⟨s2, d2⟩ <;>
          rw [hE] at h
        · exact Except.noConfusion h
        · injection h with h; subst h; rfl
    | transferReverseOut qty =>
        simp only [EndpointOp.stepE] at h
        rcases hE : reverse_transfer_impact s ⟨qty, 0, 0⟩ qty 0 0 with e | ⟨s2, d2⟩ <;>
          rw [hE] at h
        · exact Except.noConfusion h
        · injection h with h; subst h; rfl
    | transferReverseIn qty buy sell =>
        simp only [EndpointOp.stepE] at h
        rcases hE : reverse_transfer_impact ⟨0, 0, 0⟩ s qty buy sell with e | ⟨s2, d2⟩ <;>
          rw [hE] at h
        · exact Except.noConfusion h
        · injection h with h; subst h; rfl
    | stockUpsert q b l =>
        simp only [EndpointOp.stepE] at h
        injection h with h
        subst h
        rfl
    | stockDelete => exact absurd rfl hne
  · intro stockOpt q b l
    cases stockOpt <;> rfl

/-- C9 witness: the upsert endpoint on an existing row of quantity 5 and price 10.00
overwrites the row with the payload (3, 99.00, 99.00) while keeping the row present. -/
theorem c9_row_persistence_witness :
    (some (upsert_stock (some ⟨5, 1000, 1500⟩) 3 9900 9900) : Option Stock).isSome = true ∧
      upsert_stock (some ⟨5, 1000, 1500⟩) 3 9900 9900 = ⟨3, 9900, 9900⟩ :=
  ⟨c9_row_persistence.1 ⟨5, 1000, 1500⟩ (.stockUpsert 3 9900 9900) (by decide)
     (some (upsert_stock (some ⟨5, 1000, 1500⟩) 3 9900 9900)) rfl,
   c9_row_persistence.2 (some ⟨5, 1000, 1500⟩) 3 9900 9900⟩

/-- C10: when no Stock row exists and the purchase supplies no selling price, both the new
Stock row and the Purchase snapshot record the buying price as selling price; when a row
exists and the selling price is omitted, the snapshot records the current stock selling
price instead. -/
theorem c10_selling_price_default :
    (∀ qty buy : Int,
        (create_purchase_stock none qty buy none).1.selling_price = buy ∧
          (create_purchase_stock none qty buy none).2.2 = buy) ∧
      ∀ (st : Stock) (qty buy : Int),
        (create_purchase_stock (some st) qty buy none).2.2 = st.selling_price := by
  constructor
  · intro qty buy
    constructor
    · show (apply_purchase_effect ⟨0, buy, buy⟩ qty buy buy).selling_price = buy
      simp [apply_purchase_effect]
    · rfl
  · intro st qty buy
    rfl

end Mimi
